import Mathlib

/-!
Verification development for the pyOutfit orbit-estimation core.

The development embeds the data model and the operations of the
initial-orbit-determination (IOD) pipeline: trajectory-set bulk
construction from flat parallel arrays, the triplet selector, the
noise-bootstrap aggregation, the per-object estimation orchestrator,
and the orbital-element conversions.  Machine floating-point values are
embedded as real numbers; fallible operations return `Except`.
-/

open scoped Classical

/-- Modelled from the spec: geodetic site descriptor (§3 Observer):
longitude, latitude, elevation, a name and optional nominal accuracies. -/
structure Observer where
  longitude : ℝ
  latitude : ℝ
  elevation : ℝ
  name : String
  ra_accuracy : Option ℝ
  dec_accuracy : Option ℝ

/-- Modelled from the spec: a single angular measurement (§3 Observation):
direction (RA, Dec in radians), epoch (MJD, TT), 1-sigma uncertainty on
each angle and the observing site active at that epoch. -/
structure Observation where
  ra : ℝ
  dec : ℝ
  epoch : ℝ
  sigma_ra : ℝ
  sigma_dec : ℝ
  site : Observer

/-- Object identifiers are caller-supplied unsigned integers (§3). -/
abbrev ObjectId := ℕ

/-- Modelled from the spec: a TrajectorySet is an ownership arena of
Observations grouped by object id, preserving per-object insertion order
and first-appearance order of the object ids (§3, §4.1).  Embedded as an
association list from object id to the ordered observation sequence. -/
abbrev TrajectorySet := List (ObjectId × List Observation)

/-- Modelled from the spec: the error taxonomy of §7. -/
inductive OutfitError where
  | lengthMismatch (expected actual : ℕ)
  | insufficientObservations (found : ℕ)
  | solveDegenerate
  | noConvergentSolution
  | singularConversion
deriving DecidableEq, Repr

/-- Modelled from the spec: the Python-level exception families through
which core errors surface at the Python public interface; construction
failures surface as the built-in ValueError (contract exercised by
tests/test_trajectory_set.py::test_length_mismatch_raises). -/
inductive PyException where
  | valueError (message : String)
  | runtimeError (message : String)
deriving DecidableEq, Repr

/-- Modelled from the spec: the binding layer maps each core error to a
Python exception; a `LengthMismatch` becomes a ValueError identifying
expected vs. actual lengths (§4.1, §7). -/
def pyExceptionOf : OutfitError → PyException
  | .lengthMismatch expected actual =>
      .valueError s!"length mismatch: expected {expected}, got {actual}"
  | .insufficientObservations found =>
      .valueError s!"insufficient observations: {found}"
  | .solveDegenerate => .runtimeError "degenerate solve"
  | .noConvergentSolution => .runtimeError "no convergent solution"
  | .singularConversion => .runtimeError "singular conversion"

/-- Modelled from the spec: immutable estimation configuration (§3
IODParams) with its four recognized options. -/
structure IODParams where
  n_noise_realizations : ℕ
  noise_scale : ℝ
  max_obs_for_triplets : ℕ
  max_triplets : ℕ

/-- Modelled from the spec: append one observation to its object's group
in a TrajectorySet, preserving per-object insertion order; a fresh object
id is appended at the end, preserving first-appearance order (§3, §4.1). -/
def insertObs : TrajectorySet → ObjectId → Observation → TrajectorySet
  | [], i, o => [(i, [o])]
  | (j, os) :: rest, i, o =>
      if j = i then (j, os ++ [o]) :: rest
      else (j, os) :: insertObs rest i o

/-- Modelled from the spec: group a row list (object id, observation)
into a TrajectorySet by folding `insertObs` over the rows (§4.1). -/
def groupRows (rows : List (ObjectId × Observation)) : TrajectorySet :=
  rows.foldl (fun ts r => insertObs ts r.1 r.2) []

/-- Modelled from the spec: zip the flat parallel arrays into rows; each
row receives the shared scalar sigmas and the single Observer of the
call (§4.1). -/
def mkRows (ids : List ObjectId) (ra dec mjd : List ℝ)
    (sra sdec : ℝ) (site : Observer) : List (ObjectId × Observation) :=
  (ids.zip ((ra.zip dec).zip mjd)).map
    (fun p => (p.1, ⟨p.2.1.1, p.2.1.2, p.2.2, sra, sdec, site⟩))

/-- Modelled from the spec: the radians bulk-construction entry point
(§4.1): all arrays must share the ids array's length; on mismatch the
call fails with `LengthMismatch` (expected vs. actual) and commits
nothing; on success the rows are grouped by object id. -/
def trajectory_set_from_numpy_radians (ids : List ObjectId)
    (ra dec : List ℝ) (sra sdec : ℝ) (mjd : List ℝ) (site : Observer) :
    Except OutfitError TrajectorySet :=
  if ra.length ≠ ids.length then
    .error (.lengthMismatch ids.length ra.length)
  else if dec.length ≠ ids.length then
    .error (.lengthMismatch ids.length dec.length)
  else if mjd.length ≠ ids.length then
    .error (.lengthMismatch ids.length mjd.length)
  else
    .ok (groupRows (mkRows ids ra dec mjd sra sdec site))

/-- Degrees to radians. -/
noncomputable def deg2rad (x : ℝ) : ℝ := x * Real.pi / 180

/-- Arcseconds to radians. -/
noncomputable def arcsec2rad (x : ℝ) : ℝ := deg2rad (x / 3600)

/-- Modelled from the spec: the degrees bulk-construction entry point
(§4.1): identical shape to the radians path, angles arrive in degrees
and the sigma scalars in arcseconds; converted to radians before
storage. -/
noncomputable def trajectory_set_from_numpy_degrees (ids : List ObjectId)
    (ra dec : List ℝ) (sra sdec : ℝ) (mjd : List ℝ) (site : Observer) :
    Except OutfitError TrajectorySet :=
  trajectory_set_from_numpy_radians ids (ra.map deg2rad) (dec.map deg2rad)
    (arcsec2rad sra) (arcsec2rad sdec) mjd site

/-- Modelled from the spec: total number of observations held by a
TrajectorySet, summed over all object groups (§4.1). -/
def total_observations (ts : TrajectorySet) : ℕ :=
  (ts.map (fun g => g.2.length)).sum

/-- Modelled from the spec: the Python binding of the degrees entry
point surfaces core errors as Python exceptions (§6, §7). -/
noncomputable def py_trajectory_set_from_numpy_degrees (ids : List ObjectId)
    (ra dec : List ℝ) (sra sdec : ℝ) (mjd : List ℝ) (site : Observer) :
    Except PyException TrajectorySet :=
  (trajectory_set_from_numpy_degrees ids ra dec sra sdec mjd site).mapError
    pyExceptionOf

/-- Modelled from the spec: the Python binding of the radians entry
point surfaces core errors as Python exceptions (§6, §7). -/
def py_trajectory_set_from_numpy_radians (ids : List ObjectId)
    (ra dec : List ℝ) (sra sdec : ℝ) (mjd : List ℝ) (site : Observer) :
    Except PyException TrajectorySet :=
  (trajectory_set_from_numpy_radians ids ra dec sra sdec mjd site).mapError
    pyExceptionOf

/-- Modelled from the spec: Keplerian orbital elements (§3). -/
structure KeplerianElements where
  semi_major_axis : ℝ
  eccentricity : ℝ
  inclination : ℝ
  ascending_node_longitude : ℝ
  periapsis_argument : ℝ
  mean_anomaly : ℝ

/-- Modelled from the spec: Equinoctial orbital elements (§3), the
singularity-free reparametrization: semi-major axis plus the
eccentricity vector (h, k), the inclination vector (p, q) and the mean
longitude. -/
structure EquinoctialElements where
  semi_major_axis : ℝ
  h : ℝ
  k : ℝ
  p : ℝ
  q : ℝ
  mean_longitude : ℝ

/-- Modelled from the spec: Cometary orbital elements (§3), preferred
for near-parabolic and hyperbolic orbits. -/
structure CometaryElements where
  perihelion_distance : ℝ
  eccentricity : ℝ
  inclination : ℝ
  ascending_node_longitude : ℝ
  periapsis_argument : ℝ
  time_of_perihelion_passage : ℝ

/-- Modelled from the spec: closed-form deterministic Keplerian to
Equinoctial conversion (§4.5): h = e sin(ω+Ω), k = e cos(ω+Ω),
p = tan(i/2) sin Ω, q = tan(i/2) cos Ω, λ = M + ω + Ω. -/
noncomputable def KeplerianElements.to_equinoctial (kep : KeplerianElements) :
    EquinoctialElements :=
  ⟨kep.semi_major_axis,
   kep.eccentricity *
     Real.sin (kep.periapsis_argument + kep.ascending_node_longitude),
   kep.eccentricity *
     Real.cos (kep.periapsis_argument + kep.ascending_node_longitude),
   Real.tan (kep.inclination / 2) * Real.sin kep.ascending_node_longitude,
   Real.tan (kep.inclination / 2) * Real.cos kep.ascending_node_longitude,
   kep.mean_anomaly + kep.periapsis_argument + kep.ascending_node_longitude⟩

/-- Modelled from the spec: closed-form deterministic Equinoctial to
Keplerian conversion (§4.5): e = sqrt(h²+k²), i = 2 arctan sqrt(p²+q²),
Ω = arg(q + i p), ω = arg(k + i h) − Ω, M = λ − arg(k + i h). -/
noncomputable def EquinoctialElements.to_keplerian (eq : EquinoctialElements) :
    KeplerianElements :=
  ⟨eq.semi_major_axis,
   Real.sqrt (eq.h ^ 2 + eq.k ^ 2),
   2 * Real.arctan (Real.sqrt (eq.p ^ 2 + eq.q ^ 2)),
   Complex.arg ⟨eq.q, eq.p⟩,
   Complex.arg ⟨eq.k, eq.h⟩ - Complex.arg ⟨eq.q, eq.p⟩,
   eq.mean_longitude - Complex.arg ⟨eq.k, eq.h⟩⟩

/-- Modelled from the spec: the pipeline stage a result comes from
(§3 GaussResult). -/
inductive GaussStage where
  | preliminary
  | corrected
deriving DecidableEq, Repr

/-- Modelled from the spec: the closed tagged union of the three element
families (§3, §9). -/
inductive OrbitalElements where
  | keplerian (elems : KeplerianElements)
  | equinoctial (elems : EquinoctialElements)
  | cometary (elems : CometaryElements)

/-- Modelled from the spec: result of a successful estimation for one
object: a stage tag and one element family (§3 GaussResult). -/
structure GaussResult where
  stage : GaussStage
  elements : OrbitalElements

/-- Modelled from the spec: the numerical core behind §4.3 and the
random draws of §4.4 — site positions from the ephemeris collaborator,
the Gauss triangle-ratio solve with optional differential correction,
the angular-residual function, the unit Gaussian noise stream indexed
deterministically by (seed, realization index, observation index), and
the minimum epoch-gap threshold of the triplet validity check (§4.2).
These parts of the repository are outside src/, so they are represented
by their interface: a triplet solve that may fail (failures are values,
not crashes), and a residual giving the angular discrepancy of one
observation against a candidate orbit. -/
structure SolveKernel where
  solveTriplet : Observation → Observation → Observation → Option GaussResult
  residual : GaussResult → Observation → ℝ
  noiseRa : ℕ → ℕ → ℕ → ℝ
  noiseDec : ℕ → ℕ → ℕ → ℝ
  min_epoch_gap : ℝ

/-- Modelled from the spec: RMS angular residual of a candidate orbit
over a trajectory (§4.4, glossary): root of the mean squared residual. -/
noncomputable def rmsOf (K : SolveKernel) (res : GaussResult)
    (traj : List Observation) : ℝ :=
  Real.sqrt (((traj.map (fun o => K.residual res o ^ 2)).sum) / traj.length)

/-- Modelled from the spec: 3-element index combinations from a pool of
`n` observations, enumerated in deterministic lexicographic index order
(§4.2). -/
def tripleIndices (n : ℕ) : List (ℕ × ℕ × ℕ) :=
  (List.range n).flatMap (fun i =>
    (List.range n).flatMap (fun j =>
      (List.range n).filterMap (fun k =>
        if i < j ∧ j < k then some (i, j, k) else none)))

/-- Modelled from the spec: the triplet selector (§4.2): candidates are
drawn from the first `min m max_obs_for_triplets` observations, in
lexicographic index order, and enumeration stops once `max_triplets`
combinations have been produced (every produced combination, valid or
not, counts against this budget). -/
def selectTriplets (params : IODParams) (m : ℕ) : List (ℕ × ℕ × ℕ) :=
  (tripleIndices (min m params.max_obs_for_triplets)).take params.max_triplets

/-- Epoch of the observation at an index (0 when out of range). -/
def epochAt (traj : List Observation) (i : ℕ) : ℝ :=
  ((traj[i]?).map Observation.epoch).getD 0

/-- Observation at an index (junk default when out of range). -/
def obsAt (traj : List Observation) (i : ℕ) : Observation :=
  (traj[i]?).getD ⟨0, 0, 0, 0, 0, ⟨0, 0, 0, "", none, none⟩⟩

/-- Modelled from the spec: triplet validity (§4.2): strictly increasing
epochs with each consecutive gap at or above the minimum epoch-gap
threshold. -/
def validTriplet (K : SolveKernel) (traj : List Observation)
    (t : ℕ × ℕ × ℕ) : Prop :=
  epochAt traj t.1 < epochAt traj t.2.1 ∧
  epochAt traj t.2.1 < epochAt traj t.2.2 ∧
  K.min_epoch_gap ≤ epochAt traj t.2.1 - epochAt traj t.1 ∧
  K.min_epoch_gap ≤ epochAt traj t.2.2 - epochAt traj t.2.1

/-- Modelled from the spec: attempt one triplet (§4.2–§4.4): a triplet
rejected by the validity check yields no solve; otherwise the Gauss
solver runs on the perturbed observations and, on success, the candidate
orbit is scored by its RMS residual over the UNPERTURBED trajectory. -/
noncomputable def attemptTriplet (K : SolveKernel)
    (perturbed unperturbed : List Observation) (t : ℕ × ℕ × ℕ) :
    Option (GaussResult × ℝ) :=
  if validTriplet K perturbed t then
    match K.solveTriplet (obsAt perturbed t.1) (obsAt perturbed t.2.1)
        (obsAt perturbed t.2.2) with
    | some res => some (res, rmsOf K res unperturbed)
    | none => none
  else none

/-- Modelled from the spec: one noise realization's perturbed copy of a
trajectory (§4.4): independent Gaussian draws scaled by
noise_scale × sigma are added to each observation's RA and Dec; epochs,
sigmas and site are untouched. -/
noncomputable def perturbObs (K : SolveKernel) (params : IODParams)
    (seed r : ℕ) (traj : List Observation) : List Observation :=
  traj.enum.map (fun p =>
    { p.2 with
      ra := p.2.ra + params.noise_scale * p.2.sigma_ra * K.noiseRa seed r p.1,
      dec := p.2.dec +
        params.noise_scale * p.2.sigma_dec * K.noiseDec seed r p.1 })

/-- A candidate orbit produced by one triplet attempt of one noise
realization, tagged with its realization index and its position in the
selector's enumeration, and scored by its RMS over the unperturbed
trajectory. -/
structure Candidate where
  rIdx : ℕ
  tIdx : ℕ
  result : GaussResult
  rms : ℝ

/-- Modelled from the spec: run one noise realization (§4.4): perturb
the trajectory, then run the full triplet-selection + Gauss-solve
pipeline on the perturbed copy; each successful attempt becomes a
scored candidate. -/
noncomputable def runRealization (K : SolveKernel) (params : IODParams)
    (traj : List Observation) (seed r : ℕ) : List Candidate :=
  let perturbed := perturbObs K params seed r traj
  (selectTriplets params traj.length).enum.filterMap (fun p =>
    (attemptTriplet K perturbed traj p.2).map
      (fun c => ⟨r, p.1, c.1, c.2⟩))

/-- Selection key: RMS first, then realization index, then enumeration
position — a deterministic tie-break independent of completion order. -/
noncomputable def candidateKey (c : Candidate) : ℝ ×ₗ (ℕ ×ₗ ℕ) :=
  toLex (c.rms, toLex (c.rIdx, c.tIdx))

/-- Modelled from the spec: aggregation policy (§4.4): among all
candidates from all realizations, select the one minimizing the RMS
angular residual over the unperturbed trajectory (deterministic
tie-break by realization index then enumeration position, §9). -/
noncomputable def selectBest (cands : List Candidate) : Option Candidate :=
  cands.argmin candidateKey

/-- Modelled from the spec: all candidates an object's noise bootstrap
produces (§4.4): the realizations complete in the order given by the
schedule `sched`, each contributing the candidates of its own pipeline
run. -/
noncomputable def objectCandidates (K : SolveKernel) (params : IODParams)
    (traj : List Observation) (seed : ℕ) (sched : List ℕ) : List Candidate :=
  sched.flatMap (runRealization K params traj seed)

/-- Modelled from the spec: estimate one object (§4.2–§4.4): fewer than
3 observations is an `InsufficientObservations` failure; otherwise the
noise realizations listed by the completion schedule `sched` each
contribute their candidates, and the best candidate's elements and RMS
are returned; if no candidate exists at all the object fails with
`NoConvergentSolution` (§7). -/
noncomputable def estimate_object (K : SolveKernel) (params : IODParams)
    (traj : List Observation) (seed : ℕ) (sched : List ℕ) :
    Except OutfitError (GaussResult × ℝ) :=
  if traj.length < 3 then
    .error (.insufficientObservations traj.length)
  else
    match selectBest (objectCandidates K params traj seed sched) with
    | some c => .ok (c.result, c.rms)
    | none => .error .noConvergentSolution

/-- Modelled from the spec: deterministic per-object generator seeding
(§5): when a seed is supplied the effective seed of an object is a fixed
mixing function of (seed, object id); when no seed is supplied each
object draws its seed from an ambient entropy source. -/
def effSeed (seed : Option ℕ) (entropy : ℕ → ℕ) (objId : ℕ) : ℕ :=
  match seed with
  | some s => s + 1000003 * objId
  | none => entropy objId

/-- Modelled from the spec: the estimation orchestrator (§4.6): every
object id in the TrajectorySet is processed independently; a per-object
success is recorded in the first mapping, a per-object failure in the
second, and a failure never aborts the processing of sibling objects.
`sched` gives, per object, the order in which that object's noise
realizations complete (the parallel schedule); `entropy` is the ambient
randomness used only when no seed is supplied. -/
noncomputable def estimate_all_orbits (K : SolveKernel) (params : IODParams)
    (ts : TrajectorySet) (seed : Option ℕ) (entropy : ℕ → ℕ)
    (sched : ℕ → List ℕ) :
    List (ObjectId × (GaussResult × ℝ)) × List (ObjectId × OutfitError) :=
  ts.foldr
    (fun g acc =>
      match estimate_object K params g.2 (effSeed seed entropy g.1)
          (sched g.1) with
      | .ok r => ((g.1, r) :: acc.1, acc.2)
      | .error e => (acc.1, (g.1, e) :: acc.2))
    ([], [])

/-- Concrete observing site used by the concrete evaluations below
(values from tests/conftest.py, fixture `observer`). -/
noncomputable def unitTestObservatory : Observer :=
  ⟨0.123456, 45.0, 1234.0, "UnitTest Observatory", none, none⟩

/-- Concrete Keplerian element set used by the concrete evaluations. -/
noncomputable def kepW : KeplerianElements := ⟨2, 1 / 2, 1, 0, 0, 0⟩

/-- Concrete GaussResult used by the concrete evaluations. -/
noncomputable def gW : GaussResult := ⟨.preliminary, .keplerian kepW⟩

/-- Concrete observation used by the concrete evaluations: zero angles
and sigmas, given epoch. -/
noncomputable def obsW (t : ℝ) : Observation :=
  ⟨0, 0, t, 0, 0, unitTestObservatory⟩

/-- Concrete three-observation trajectory with epochs 0, 1, 2. -/
noncomputable def trajW : List Observation := [obsW 0, obsW 1, obsW 2]

/-- Concrete solve kernel for the concrete evaluations: every triplet
solves to `gW`, residuals vanish, the noise stream is zero and the
epoch-gap threshold is zero. -/
noncomputable def solveKernelW : SolveKernel :=
  ⟨fun _ _ _ => some gW, fun _ _ => 0, fun _ _ _ => 0, fun _ _ _ => 0, 0⟩

/-- Concrete estimation parameters for the concrete evaluations. -/
noncomputable def paramsW : IODParams := ⟨1, 1, 12, 30⟩

/-- Concrete one-object TrajectorySet for the concrete evaluations. -/
noncomputable def tsW : TrajectorySet := [(0, trajW)]

/-! ### Construction lemmas -/

theorem total_observations_insertObs (ts : TrajectorySet) (i : ObjectId)
    (o : Observation) :
    total_observations (insertObs ts i o) = total_observations ts + 1 := by
  induction ts with
  | nil => simp [insertObs, total_observations]
  | cons g rest ih =>
    obtain ⟨j, os⟩ := g
    by_cases h : j = i
    · simp [insertObs, h, total_observations]
      omega
    · simp only [insertObs, h, if_false, total_observations, List.map_cons,
        List.sum_cons] at *
      omega

theorem total_observations_foldl (rows : List (ObjectId × Observation))
    (ts : TrajectorySet) :
    total_observations (rows.foldl (fun acc r => insertObs acc r.1 r.2) ts) =
      total_observations ts + rows.length := by
  induction rows generalizing ts with
  | nil => simp
  | cons r rest ih =>
    simp only [List.foldl_cons, List.length_cons, ih,
      total_observations_insertObs]
    omega

theorem total_observations_groupRows (rows : List (ObjectId × Observation)) :
    total_observations (groupRows rows) = rows.length := by
  simpa [groupRows, total_observations] using total_observations_foldl rows []

theorem mkRows_length (ids : List ObjectId) (ra dec mjd : List ℝ)
    (sra sdec : ℝ) (site : Observer)
    (hra : ra.length = ids.length) (hdec : dec.length = ids.length)
    (hmjd : mjd.length = ids.length) :
    (mkRows ids ra dec mjd sra sdec site).length = ids.length := by
  simp [mkRows, hra, hdec, hmjd]

theorem radians_ok_of_lengths (ids : List ObjectId) (ra dec mjd : List ℝ)
    (sra sdec : ℝ) (site : Observer)
    (hra : ra.length = ids.length) (hdec : dec.length = ids.length)
    (hmjd : mjd.length = ids.length) :
    trajectory_set_from_numpy_radians ids ra dec sra sdec mjd site =
      .ok (groupRows (mkRows ids ra dec mjd sra sdec site)) := by
  simp [trajectory_set_from_numpy_radians, hra, hdec, hmjd]

theorem radians_mismatch_error (ids : List ObjectId) (ra dec mjd : List ℝ)
    (sra sdec : ℝ) (site : Observer)
    (h : ¬(ra.length = ids.length ∧ dec.length = ids.length ∧
      mjd.length = ids.length)) :
    ∃ a, trajectory_set_from_numpy_radians ids ra dec sra sdec mjd site =
        .error (.lengthMismatch ids.length a) ∧ a ≠ ids.length := by
  unfold trajectory_set_from_numpy_radians
  by_cases h1 : ra.length = ids.length
  · by_cases h2 : dec.length = ids.length
    · by_cases h3 : mjd.length = ids.length
      · exact absurd ⟨h1, h2, h3⟩ h
      · exact ⟨mjd.length, by simp [h1, h2, h3], h3⟩
    · exact ⟨dec.length, by simp [h1, h2], h2⟩
  · exact ⟨ra.length, by simp [h1], h1⟩

theorem degrees_mismatch_error (ids : List ObjectId) (ra dec mjd : List ℝ)
    (sra sdec : ℝ) (site : Observer)
    (h : ¬(ra.length = ids.length ∧ dec.length = ids.length ∧
      mjd.length = ids.length)) :
    ∃ a, trajectory_set_from_numpy_degrees ids ra dec sra sdec mjd site =
        .error (.lengthMismatch ids.length a) ∧ a ≠ ids.length := by
  unfold trajectory_set_from_numpy_degrees
  exact radians_mismatch_error ids (ra.map deg2rad) (dec.map deg2rad) mjd
    (arcsec2rad sra) (arcsec2rad sdec) site (by simpa using h)

/-! ### Claim theorems: bulk construction -/

/-- C2: for every valid bulk-construction call (all input arrays of the
same length `n`, via either the radians or the degrees entry point), the
returned TrajectorySet satisfies `total_observations () = n`. -/
theorem C2_bulk_total_observations (ids : List ObjectId) (ra dec mjd : List ℝ)
    (sra sdec : ℝ) (site : Observer) (n : ℕ)
    (hids : ids.length = n) (hra : ra.length = n) (hdec : dec.length = n)
    (hmjd : mjd.length = n) :
    (∃ ts, trajectory_set_from_numpy_radians ids ra dec sra sdec mjd site =
        .ok ts ∧ total_observations ts = n) ∧
    ∃ ts, trajectory_set_from_numpy_degrees ids ra dec sra sdec mjd site =
        .ok ts ∧ total_observations ts = n := by
  constructor
  · refine ⟨_, radians_ok_of_lengths ids ra dec mjd sra sdec site
      (by omega) (by omega) (by omega), ?_⟩
    rw [total_observations_groupRows,
      mkRows_length ids ra dec mjd sra sdec site (by omega) (by omega)
        (by omega), hids]
  · refine ⟨_, radians_ok_of_lengths ids (ra.map deg2rad) (dec.map deg2rad)
      mjd (arcsec2rad sra) (arcsec2rad sdec) site
      (by simp; omega) (by simp; omega) (by omega), ?_⟩
    rw [total_observations_groupRows,
      mkRows_length ids (ra.map deg2rad) (dec.map deg2rad) mjd
        (arcsec2rad sra) (arcsec2rad sdec) site (by simp; omega)
        (by simp; omega) (by omega), hids]

/-- Witness for C2 at a concrete two-row call. -/
theorem C2_bulk_total_observations_witness :
    ([0, 1] : List ObjectId).length = 2 ∧
    ([0.1, 0.2] : List ℝ).length = 2 ∧
    ([0.3, 0.4] : List ℝ).length = 2 ∧
    ([60000, 60001] : List ℝ).length = 2 ∧
    ((∃ ts, trajectory_set_from_numpy_radians [0, 1] [0.1, 0.2] [0.3, 0.4]
        0.001 0.001 [60000, 60001] unitTestObservatory =
        .ok ts ∧ total_observations ts = 2) ∧
     ∃ ts, trajectory_set_from_numpy_degrees [0, 1] [0.1, 0.2] [0.3, 0.4]
        0.001 0.001 [60000, 60001] unitTestObservatory =
        .ok ts ∧ total_observations ts = 2) :=
  ⟨rfl, rfl, rfl, rfl,
    C2_bulk_total_observations [0, 1] [0.1, 0.2] [0.3, 0.4] [60000, 60001]
      0.001 0.001 unitTestObservatory 2 rfl rfl rfl rfl⟩

/-- C3: bulk construction with mismatched array lengths fails with a
`LengthMismatch` error (identifying differing expected and actual
lengths) on both entry points; no TrajectorySet is returned and, the
construction being a pure function of its inputs, no partial state is
committed. -/
theorem C3_length_mismatch_fails (ids : List ObjectId) (ra dec mjd : List ℝ)
    (sra sdec : ℝ) (site : Observer)
    (h : ¬(ra.length = ids.length ∧ dec.length = ids.length ∧
      mjd.length = ids.length)) :
    (∃ expected actual,
        trajectory_set_from_numpy_radians ids ra dec sra sdec mjd site =
          .error (.lengthMismatch expected actual) ∧ expected ≠ actual) ∧
    ∃ expected actual,
        trajectory_set_from_numpy_degrees ids ra dec sra sdec mjd site =
          .error (.lengthMismatch expected actual) ∧ expected ≠ actual := by
  constructor
  · obtain ⟨a, heq, hne⟩ :=
      radians_mismatch_error ids ra dec mjd sra sdec site h
    exact ⟨ids.length, a, heq, fun hc => hne hc.symm⟩
  · obtain ⟨a, heq, hne⟩ :=
      degrees_mismatch_error ids ra dec mjd sra sdec site h
    exact ⟨ids.length, a, heq, fun hc => hne hc.symm⟩

/-- Witness for C3 at the concrete mismatched call of
tests/test_trajectory_set.py::test_length_mismatch_raises (three ids,
two RA values). -/
theorem C3_length_mismatch_fails_witness :
    ¬(([10.0, 10.01] : List ℝ).length = ([0, 0, 1] : List ObjectId).length ∧
      ([5.0, 5.01, 5.02] : List ℝ).length = ([0, 0, 1] : List ObjectId).length ∧
      ([60000.0, 60000.01, 60000.02] : List ℝ).length =
        ([0, 0, 1] : List ObjectId).length) ∧
    ((∃ expected actual,
        trajectory_set_from_numpy_radians [0, 0, 1] [10.0, 10.01]
          [5.0, 5.01, 5.02] 0.001 0.001 [60000.0, 60000.01, 60000.02]
          unitTestObservatory =
          .error (.lengthMismatch expected actual) ∧ expected ≠ actual) ∧
     ∃ expected actual,
        trajectory_set_from_numpy_degrees [0, 0, 1] [10.0, 10.01]
          [5.0, 5.01, 5.02] 0.001 0.001 [60000.0, 60000.01, 60000.02]
          unitTestObservatory =
          .error (.lengthMismatch expected actual) ∧ expected ≠ actual) :=
  ⟨by simp,
    C3_length_mismatch_fails [0, 0, 1] [10.0, 10.01] [5.0, 5.01, 5.02]
      [60000.0, 60000.01, 60000.02] 0.001 0.001 unitTestObservatory
      (by simp)⟩

/-- C9: the scenario of tests/test_trajectory_set.py: object ids
[0,0,0,1,1] with degree-valued RA/Dec, arcsecond sigma 0.5 and five
epoch rows build a TrajectorySet with 5 total observations and exactly
the two object ids 0 (3 observations) and 1 (2 observations). -/
theorem C9_two_object_scenario :
    ∃ ts, trajectory_set_from_numpy_degrees [0, 0, 0, 1, 1]
        [10.0, 10.01, 10.02, 185.0, 185.02]
        [5.0, 5.01, 5.02, -2.0, -2.02] 0.5 0.5
        [60000.0, 60000.01, 60000.02, 60000.03, 60000.04]
        unitTestObservatory = .ok ts ∧
      total_observations ts = 5 ∧
      ts.map Prod.fst = [0, 1] ∧
      (ts.lookup 0).map List.length = some 3 ∧
      (ts.lookup 1).map List.length = some 2 :=
  ⟨_, rfl, rfl, rfl, rfl, rfl⟩

/-- C10: at the Python public interface, a bulk-construction call with
mismatched input-array lengths raises the built-in ValueError (the
`LengthMismatch` condition surfaces to Python callers as ValueError),
on both the degrees and the radians entry points. -/
theorem C10_mismatch_raises_valueError (ids : List ObjectId)
    (ra dec mjd : List ℝ) (sra sdec : ℝ) (site : Observer)
    (h : ¬(ra.length = ids.length ∧ dec.length = ids.length ∧
      mjd.length = ids.length)) :
    (∃ msg, py_trajectory_set_from_numpy_degrees ids ra dec sra sdec mjd
        site = .error (.valueError msg)) ∧
    ∃ msg, py_trajectory_set_from_numpy_radians ids ra dec sra sdec mjd
        site = .error (.valueError msg) := by
  constructor
  · obtain ⟨a, heq, -⟩ :=
      degrees_mismatch_error ids ra dec mjd sra sdec site h
    unfold py_trajectory_set_from_numpy_degrees
    rw [heq]
    exact ⟨_, rfl⟩
  · obtain ⟨a, heq, -⟩ :=
      radians_mismatch_error ids ra dec mjd sra sdec site h
    unfold py_trajectory_set_from_numpy_radians
    rw [heq]
    exact ⟨_, rfl⟩

/-- Witness for C10 at the concrete mismatched call of
tests/test_trajectory_set.py::test_length_mismatch_raises. -/
theorem C10_mismatch_raises_valueError_witness :
    ¬(([10.0, 10.01] : List ℝ).length = ([0, 0, 1] : List ObjectId).length ∧
      ([5.0, 5.01, 5.02] : List ℝ).length = ([0, 0, 1] : List ObjectId).length ∧
      ([60000.0, 60000.01, 60000.02] : List ℝ).length =
        ([0, 0, 1] : List ObjectId).length) ∧
    ((∃ msg, py_trajectory_set_from_numpy_degrees [0, 0, 1] [10.0, 10.01]
        [5.0, 5.01, 5.02] 0.001 0.001 [60000.0, 60000.01, 60000.02]
        unitTestObservatory = .error (.valueError msg)) ∧
     ∃ msg, py_trajectory_set_from_numpy_radians [0, 0, 1] [10.0, 10.01]
        [5.0, 5.01, 5.02] 0.001 0.001 [60000.0, 60000.01, 60000.02]
        unitTestObservatory = .error (.valueError msg)) :=
  ⟨by simp,
    C10_mismatch_raises_valueError [0, 0, 1] [10.0, 10.01] [5.0, 5.01, 5.02]
      [60000.0, 60000.01, 60000.02] 0.001 0.001 unitTestObservatory
      (by simp)⟩

/-- C6: the degrees and the radians construction paths called with
equivalent inputs (degrees converted to radians, arcseconds converted
to radians) build the same TrajectorySet, and consequently every
orchestrator run on the two built sets returns identical results. -/
theorem C6_degrees_radians_equivalent (ids : List ObjectId)
    (raDeg decDeg : List ℝ) (sraSec sdecSec : ℝ)
    (raRad decRad : List ℝ) (sraRad sdecRad : ℝ)
    (mjd : List ℝ) (site : Observer)
    (hra : raDeg.map deg2rad = raRad) (hdec : decDeg.map deg2rad = decRad)
    (hsra : arcsec2rad sraSec = sraRad) (hsdec : arcsec2rad sdecSec = sdecRad) :
    (trajectory_set_from_numpy_degrees ids raDeg decDeg sraSec sdecSec mjd
        site =
      trajectory_set_from_numpy_radians ids raRad decRad sraRad sdecRad mjd
        site) ∧
    ∀ K params seed entropy sched tsD tsR,
      trajectory_set_from_numpy_degrees ids raDeg decDeg sraSec sdecSec mjd
        site = .ok tsD →
      trajectory_set_from_numpy_radians ids raRad decRad sraRad sdecRad mjd
        site = .ok tsR →
      estimate_all_orbits K params tsD seed entropy sched =
        estimate_all_orbits K params tsR seed entropy sched := by
  subst hra hdec hsra hsdec
  refine ⟨rfl, fun K params seed entropy sched tsD tsR hD hR => ?_⟩
  rw [trajectory_set_from_numpy_degrees] at hD
  rw [hD] at hR
  cases hR
  rfl

/-- Witness for C6 at a concrete one-row call (degree value 10, sigma
0.5 arcsec, and their radian conversions). -/
theorem C6_degrees_radians_equivalent_witness :
    ([10.0] : List ℝ).map deg2rad = [deg2rad 10.0] ∧
    ([5.0] : List ℝ).map deg2rad = [deg2rad 5.0] ∧
    arcsec2rad 0.5 = arcsec2rad 0.5 ∧
    ((trajectory_set_from_numpy_degrees [0] [10.0] [5.0] 0.5 0.5 [60000.0]
        unitTestObservatory =
      trajectory_set_from_numpy_radians [0] [deg2rad 10.0] [deg2rad 5.0]
        (arcsec2rad 0.5) (arcsec2rad 0.5) [60000.0] unitTestObservatory) ∧
     ∀ K params seed entropy sched tsD tsR,
      trajectory_set_from_numpy_degrees [0] [10.0] [5.0] 0.5 0.5 [60000.0]
        unitTestObservatory = .ok tsD →
      trajectory_set_from_numpy_radians [0] [deg2rad 10.0] [deg2rad 5.0]
        (arcsec2rad 0.5) (arcsec2rad 0.5) [60000.0] unitTestObservatory =
        .ok tsR →
      estimate_all_orbits K params tsD seed entropy sched =
        estimate_all_orbits K params tsR seed entropy sched) :=
  ⟨rfl, rfl, rfl,
    C6_degrees_radians_equivalent [0] [10.0] [5.0] 0.5 0.5 [deg2rad 10.0]
      [deg2rad 5.0] (arcsec2rad 0.5) (arcsec2rad 0.5) [60000.0]
      unitTestObservatory rfl rfl rfl rfl⟩

/-! ### Orchestrator lemmas -/

theorem estimate_all_orbits_keys_perm (K : SolveKernel) (params : IODParams)
    (ts : TrajectorySet) (seed : Option ℕ) (entropy : ℕ → ℕ)
    (sched : ℕ → List ℕ) :
    ((estimate_all_orbits K params ts seed entropy sched).1.map Prod.fst ++
      (estimate_all_orbits K params ts seed entropy sched).2.map Prod.fst).Perm
      (ts.map Prod.fst) := by
  induction ts with
  | nil => simp [estimate_all_orbits]
  | cons g rest ih =>
    simp only [estimate_all_orbits, List.foldr_cons, List.map_cons]
    simp only [estimate_all_orbits] at ih
    cases estimate_object K params g.2 (effSeed seed entropy g.1)
        (sched g.1) with
    | ok r => exact (List.Perm.cons g.1 ih)
    | error e =>
      exact List.perm_middle.trans (List.Perm.cons g.1 ih)

/-- C1: the successes and failures mappings returned by the orchestrator
partition the object ids of the TrajectorySet exactly: together their
keys are a permutation of the TrajectorySet's object-id list (so no id
is missing and per-object failures never remove another object's entry),
and when the TrajectorySet's ids are distinct no id appears in both
mappings. -/
theorem C1_orchestrator_partition (K : SolveKernel) (params : IODParams)
    (ts : TrajectorySet) (seed : Option ℕ) (entropy : ℕ → ℕ)
    (sched : ℕ → List ℕ) (hnd : (ts.map Prod.fst).Nodup) :
    ((estimate_all_orbits K params ts seed entropy sched).1.map Prod.fst ++
      (estimate_all_orbits K params ts seed entropy sched).2.map Prod.fst).Perm
      (ts.map Prod.fst) ∧
    ∀ i : ObjectId,
      ¬(i ∈ (estimate_all_orbits K params ts seed entropy sched).1.map
          Prod.fst ∧
        i ∈ (estimate_all_orbits K params ts seed entropy sched).2.map
          Prod.fst) := by
  have hperm := estimate_all_orbits_keys_perm K params ts seed entropy sched
  refine ⟨hperm, fun i ⟨hs, hf⟩ => ?_⟩
  have hnd2 := hperm.nodup_iff.mpr hnd
  obtain ⟨-, -, hdisj⟩ := List.nodup_append.mp hnd2
  exact hdisj hs hf

/-- Witness for C1 on the concrete one-object TrajectorySet. -/
theorem C1_orchestrator_partition_witness :
    ((tsW.map Prod.fst).Nodup) ∧
    (((estimate_all_orbits solveKernelW paramsW tsW (some 0) (fun _ => 0)
        (fun _ => [0])).1.map Prod.fst ++
      (estimate_all_orbits solveKernelW paramsW tsW (some 0) (fun _ => 0)
        (fun _ => [0])).2.map Prod.fst).Perm (tsW.map Prod.fst) ∧
     ∀ i : ObjectId,
      ¬(i ∈ (estimate_all_orbits solveKernelW paramsW tsW (some 0)
          (fun _ => 0) (fun _ => [0])).1.map Prod.fst ∧
        i ∈ (estimate_all_orbits solveKernelW paramsW tsW (some 0)
          (fun _ => 0) (fun _ => [0])).2.map Prod.fst)) :=
  ⟨List.nodup_singleton 0,
    C1_orchestrator_partition solveKernelW paramsW tsW (some 0) (fun _ => 0)
      (fun _ => [0]) (List.nodup_singleton 0)⟩

/-! ### Triplet selector lemmas -/

theorem mem_tripleIndices {n : ℕ} {t : ℕ × ℕ × ℕ}
    (ht : t ∈ tripleIndices n) :
    t.1 < t.2.1 ∧ t.2.1 < t.2.2 ∧ t.2.2 < n := by
  simp only [tripleIndices, List.mem_flatMap, List.mem_filterMap,
    List.mem_range] at ht
  obtain ⟨i, -, j, -, k, hk, hif⟩ := ht
  by_cases hc : i < j ∧ j < k
  · rw [if_pos hc] at hif
    cases hif
    exact ⟨hc.1, hc.2, hk⟩
  · rw [if_neg hc] at hif
    cases hif

theorem tripleIndices_sorted (n : ℕ) :
    (tripleIndices n).Pairwise
      (fun a b => Prod.Lex (· < ·) (Prod.Lex (· < ·) (· < ·)) a b) := by
  unfold tripleIndices
  rw [List.pairwise_flatMap]
  constructor
  · intro i _
    rw [List.pairwise_flatMap]
    constructor
    · intro j _
      rw [List.pairwise_filterMap]
      refine (List.pairwise_lt_range n).imp ?_
      intro k k' hkk' c hc c' hc'
      by_cases h1 : i < j ∧ j < k
      · by_cases h2 : i < j ∧ j < k'
        · rw [if_pos h1, Option.mem_def, Option.some_inj] at hc
          rw [if_pos h2, Option.mem_def, Option.some_inj] at hc'
          subst hc hc'
          exact Prod.Lex.right i (Prod.Lex.right j hkk')
        · rw [if_neg h2] at hc'
          cases hc'
      · rw [if_neg h1] at hc
        cases hc
    · refine (List.pairwise_lt_range n).imp ?_
      intro j j' hjj' c hc c' hc'
      simp only [List.mem_filterMap, List.mem_range] at hc hc'
      obtain ⟨k, -, hk⟩ := hc
      obtain ⟨k', -, hk'⟩ := hc'
      by_cases h1 : i < j ∧ j < k
      · by_cases h2 : i < j' ∧ j' < k'
        · rw [if_pos h1, Option.some_inj] at hk
          rw [if_pos h2, Option.some_inj] at hk'
          subst hk hk'
          exact Prod.Lex.right i (Prod.Lex.left _ _ hjj')
        · rw [if_neg h2] at hk'
          cases hk'
      · rw [if_neg h1] at hk
        cases hk
  · refine (List.pairwise_lt_range n).imp ?_
    intro i i' hii' c hc c' hc'
    simp only [List.mem_flatMap, List.mem_filterMap, List.mem_range] at hc hc'
    obtain ⟨j, -, k, -, hk⟩ := hc
    obtain ⟨j', -, k', -, hk'⟩ := hc'
    by_cases h1 : i < j ∧ j < k
    · by_cases h2 : i' < j' ∧ j' < k'
      · rw [if_pos h1, Option.some_inj] at hk
        rw [if_pos h2, Option.some_inj] at hk'
        subst hk hk'
        exact Prod.Lex.left _ _ hii'
      · rw [if_neg h2] at hk'
        cases hk'
    · rw [if_neg h1] at hk
      cases hk

/-- C8: for a trajectory with m ≥ 3 observations the triplet selector
enumerates 3-element index combinations drawn only from the first
min(m, max_obs_for_triplets) observations, in deterministic (strictly
lexicographic) order, produces at most max_triplets combinations, and a
combination rejected for non-increasing epochs or below-threshold epoch
gaps consumes its slot of that budget but contributes no solve. -/
theorem C8_triplet_selector_bounds (params : IODParams) (m : ℕ)
    (hm : 3 ≤ m) :
    (∀ t ∈ selectTriplets params m,
      t.1 < t.2.1 ∧ t.2.1 < t.2.2 ∧
        t.2.2 < min m params.max_obs_for_triplets) ∧
    (selectTriplets params m).length ≤ params.max_triplets ∧
    (selectTriplets params m).Pairwise
      (fun a b => Prod.Lex (· < ·) (Prod.Lex (· < ·) (· < ·)) a b) ∧
    ∀ (K : SolveKernel) (perturbed unperturbed : List Observation)
      (t : ℕ × ℕ × ℕ), ¬validTriplet K perturbed t →
        attemptTriplet K perturbed unperturbed t = none := by
  refine ⟨?_, ?_, ?_, ?_⟩
  · intro t ht
    exact mem_tripleIndices (List.mem_of_mem_take ht)
  · rw [selectTriplets, List.length_take]
    exact min_le_left _ _
  · exact (tripleIndices_sorted _).sublist (List.take_sublist _ _)
  · intro K perturbed unperturbed t hval
    rw [attemptTriplet, if_neg hval]

/-- Witness for C8 at m = 5 observations. -/
theorem C8_triplet_selector_bounds_witness :
    3 ≤ 5 ∧
    ((∀ t ∈ selectTriplets paramsW 5,
      t.1 < t.2.1 ∧ t.2.1 < t.2.2 ∧
        t.2.2 < min 5 paramsW.max_obs_for_triplets) ∧
    (selectTriplets paramsW 5).length ≤ paramsW.max_triplets ∧
    (selectTriplets paramsW 5).Pairwise
      (fun a b => Prod.Lex (· < ·) (Prod.Lex (· < ·) (· < ·)) a b) ∧
    ∀ (K : SolveKernel) (perturbed unperturbed : List Observation)
      (t : ℕ × ℕ × ℕ), ¬validTriplet K perturbed t →
        attemptTriplet K perturbed unperturbed t = none) :=
  ⟨by omega, C8_triplet_selector_bounds paramsW 5 (by omega)⟩

/-! ### Element conversion lemmas -/

theorem round_trip_semi_major_axis (kep : KeplerianElements) :
    kep.to_equinoctial.to_keplerian.semi_major_axis = kep.semi_major_axis :=
  rfl

theorem round_trip_eccentricity (kep : KeplerianElements)
    (he0 : 0 ≤ kep.eccentricity) :
    kep.to_equinoctial.to_keplerian.eccentricity = kep.eccentricity := by
  unfold KeplerianElements.to_equinoctial EquinoctialElements.to_keplerian
  simp only
  have hsum :
      (kep.eccentricity *
          Real.sin (kep.periapsis_argument + kep.ascending_node_longitude)) ^ 2 +
        (kep.eccentricity *
          Real.cos (kep.periapsis_argument + kep.ascending_node_longitude)) ^ 2 =
        kep.eccentricity ^ 2 := by
    have := Real.sin_sq_add_cos_sq
      (kep.periapsis_argument + kep.ascending_node_longitude)
    ring_nf
    nlinarith [this]
  rw [hsum, Real.sqrt_sq_eq_abs, abs_of_nonneg he0]

/-- C5: for every Keplerian element set with eccentricity in [0, 0.95]
and inclination in [0.01, π − 0.01] radians, the round trip
Keplerian → Equinoctial → Keplerian reproduces the semi-major axis and
the eccentricity within relative tolerance 1e-9 (absolute tolerance
1e-12 near zero); in the real-number model the reproduction is exact. -/
theorem C5_keplerian_equinoctial_round_trip (kep : KeplerianElements)
    (he0 : 0 ≤ kep.eccentricity) (he1 : kep.eccentricity ≤ 0.95)
    (hi0 : 0.01 ≤ kep.inclination)
    (hi1 : kep.inclination ≤ Real.pi - 0.01) :
    |kep.to_equinoctial.to_keplerian.semi_major_axis -
        kep.semi_major_axis| ≤
      max (1e-9 * |kep.semi_major_axis|) 1e-12 ∧
    |kep.to_equinoctial.to_keplerian.eccentricity -
        kep.eccentricity| ≤
      max (1e-9 * |kep.eccentricity|) 1e-12 := by
  rw [round_trip_semi_major_axis, round_trip_eccentricity kep he0]
  constructor
  · rw [sub_self, abs_zero]
    exact le_max_of_le_right (by norm_num)
  · rw [sub_self, abs_zero]
    exact le_max_of_le_right (by norm_num)

/-- Witness for C5 at the concrete non-singular element set `kepW`
(a = 2, e = 1/2, i = 1 radian). -/
theorem C5_keplerian_equinoctial_round_trip_witness :
    (0 ≤ kepW.eccentricity ∧ kepW.eccentricity ≤ 0.95 ∧
      0.01 ≤ kepW.inclination ∧ kepW.inclination ≤ Real.pi - 0.01) ∧
    (|kepW.to_equinoctial.to_keplerian.semi_major_axis -
        kepW.semi_major_axis| ≤
      max (1e-9 * |kepW.semi_major_axis|) 1e-12 ∧
    |kepW.to_equinoctial.to_keplerian.eccentricity -
        kepW.eccentricity| ≤
      max (1e-9 * |kepW.eccentricity|) 1e-12) := by
  have hpi := Real.pi_gt_d6
  have h1 : (0 : ℝ) ≤ kepW.eccentricity := by norm_num [kepW]
  have h2 : kepW.eccentricity ≤ 0.95 := by norm_num [kepW]
  have h3 : (0.01 : ℝ) ≤ kepW.inclination := by norm_num [kepW]
  have h4 : kepW.inclination ≤ Real.pi - 0.01 := by
    simp only [kepW]
    linarith
  exact ⟨⟨h1, h2, h3, h4⟩,
    C5_keplerian_equinoctial_round_trip kepW h1 h2 h3 h4⟩

/-! ### Noise-bootstrap lemmas -/

theorem rmsOf_nonneg (K : SolveKernel) (res : GaussResult)
    (traj : List Observation) : 0 ≤ rmsOf K res traj :=
  Real.sqrt_nonneg _

theorem attemptTriplet_eq_some {K : SolveKernel}
    {pert unpert : List Observation} {t : ℕ × ℕ × ℕ}
    {x : GaussResult × ℝ} (h : attemptTriplet K pert unpert t = some x) :
    x.2 = rmsOf K x.1 unpert := by
  unfold attemptTriplet at h
  by_cases hv : validTriplet K pert t
  · rw [if_pos hv] at h
    cases hs : K.solveTriplet (obsAt pert t.1) (obsAt pert t.2.1)
        (obsAt pert t.2.2) with
    | some res => rw [hs] at h; cases h; rfl
    | none => rw [hs] at h; cases h
  · rw [if_neg hv] at h
    cases h

theorem mem_runRealization {K : SolveKernel} {params : IODParams}
    {traj : List Observation} {seed r : ℕ} {c : Candidate}
    (hc : c ∈ runRealization K params traj seed r) :
    c.rIdx = r ∧ 0 ≤ c.rms := by
  unfold runRealization at hc
  rw [List.mem_filterMap] at hc
  obtain ⟨p, -, hp⟩ := hc
  rw [Option.map_eq_some'] at hp
  obtain ⟨x, hx, hcx⟩ := hp
  subst hcx
  refine ⟨rfl, ?_⟩
  have hx2 := attemptTriplet_eq_some hx
  show 0 ≤ x.2
  rw [hx2]
  exact rmsOf_nonneg _ _ _

theorem runRealization_tIdx_pairwise (K : SolveKernel) (params : IODParams)
    (traj : List Observation) (seed r : ℕ) :
    (runRealization K params traj seed r).Pairwise
      (fun a b => a.tIdx ≠ b.tIdx) := by
  unfold runRealization
  rw [List.pairwise_filterMap]
  have henum : ((selectTriplets params traj.length).enum).Pairwise
      (fun a b => a.1 ≠ b.1) :=
    List.Pairwise.of_map Prod.fst (fun _ _ h => h)
      (List.nodup_enum_map_fst (selectTriplets params traj.length))
  refine henum.imp ?_
  intro a b hab c hc c' hc'
  rw [Option.mem_def, Option.map_eq_some'] at hc hc'
  obtain ⟨x, -, hx⟩ := hc
  obtain ⟨x', -, hx'⟩ := hc'
  subst hx hx'
  exact hab

theorem mem_objectCandidates {K : SolveKernel} {params : IODParams}
    {traj : List Observation} {seed : ℕ} {sched : List ℕ} {c : Candidate}
    (hc : c ∈ objectCandidates K params traj seed sched) :
    c.rIdx ∈ sched ∧ 0 ≤ c.rms := by
  unfold objectCandidates at hc
  rw [List.mem_flatMap] at hc
  obtain ⟨r, hr, hcr⟩ := hc
  obtain ⟨hidx, hnn⟩ := mem_runRealization hcr
  exact ⟨hidx ▸ hr, hnn⟩

theorem objectCandidates_pairKey_nodup (K : SolveKernel) (params : IODParams)
    (traj : List Observation) (seed : ℕ) {sched : List ℕ}
    (hnd : sched.Nodup) :
    ((objectCandidates K params traj seed sched).map
      (fun c => (c.rIdx, c.tIdx))).Nodup := by
  unfold objectCandidates
  rw [List.map_flatMap, List.nodup_flatMap]
  constructor
  · intro r _
    refine List.Pairwise.map _ ?_
      (runRealization_tIdx_pairwise K params traj seed r)
    intro a b hab heq
    exact hab (congrArg Prod.snd heq)
  · refine hnd.imp ?_
    intro r r' hrr' x hx hx'
    rw [List.mem_map] at hx hx'
    obtain ⟨c, hc, hcx⟩ := hx
    obtain ⟨c', hc', hcx'⟩ := hx'
    subst hcx
    have h1 := (mem_runRealization hc).1
    have h2 := (mem_runRealization hc').1
    apply hrr'
    rw [← h1, ← h2]
    exact congrArg Prod.fst hcx'.symm

theorem objectCandidates_key_nodup (K : SolveKernel) (params : IODParams)
    (traj : List Observation) (seed : ℕ) {sched : List ℕ}
    (hnd : sched.Nodup) :
    ((objectCandidates K params traj seed sched).map candidateKey).Nodup := by
  have hpair := objectCandidates_pairKey_nodup K params traj seed hnd
  have heq : (objectCandidates K params traj seed sched).map
      (fun c => (c.rIdx, c.tIdx)) =
      ((objectCandidates K params traj seed sched).map candidateKey).map
        (fun x => ofLex (ofLex x).2) := by
    rw [List.map_map]
    rfl
  rw [heq] at hpair
  exact hpair.of_map _

theorem argmin_congr_perm {α β : Type} [LinearOrder β] {f : α → β}
    {l₁ l₂ : List α} (hp : l₁.Perm l₂) (hnd : (l₁.map f).Nodup) :
    l₁.argmin f = l₂.argmin f := by
  cases h₁ : l₁.argmin f with
  | none =>
    rw [List.argmin_eq_none] at h₁
    subst h₁
    rw [hp.symm.eq_nil, List.argmin_nil]
  | some c =>
    cases h₂ : l₂.argmin f with
    | none =>
      rw [List.argmin_eq_none] at h₂
      subst h₂
      rw [hp.eq_nil, List.argmin_nil] at h₁
      cases h₁
    | some d =>
      have hc : c ∈ l₁ := List.argmin_mem h₁
      have hd : d ∈ l₁ := hp.mem_iff.mpr (List.argmin_mem h₂)
      have h1 : f c ≤ f d := List.le_of_mem_argmin hd h₁
      have h2 : f d ≤ f c := List.le_of_mem_argmin (hp.subset hc) h₂
      rw [List.inj_on_of_nodup_map hnd hc hd (le_antisymm h1 h2)]

/-! ### Estimation lemmas -/

theorem estimate_all_orbits_cons (K : SolveKernel) (params : IODParams)
    (g : ObjectId × List Observation) (rest : TrajectorySet)
    (seed : Option ℕ) (entropy : ℕ → ℕ) (sched : ℕ → List ℕ) :
    estimate_all_orbits K params (g :: rest) seed entropy sched =
      match estimate_object K params g.2 (effSeed seed entropy g.1)
          (sched g.1) with
      | .ok r =>
          ((g.1, r) ::
            (estimate_all_orbits K params rest seed entropy sched).1,
           (estimate_all_orbits K params rest seed entropy sched).2)
      | .error e =>
          ((estimate_all_orbits K params rest seed entropy sched).1,
           (g.1, e) ::
            (estimate_all_orbits K params rest seed entropy sched).2) :=
  rfl

theorem estimate_object_ok {K : SolveKernel} {params : IODParams}
    {traj : List Observation} {seed : ℕ} {sched : List ℕ}
    {res : GaussResult} {rms : ℝ}
    (h : estimate_object K params traj seed sched = .ok (res, rms)) :
    0 ≤ rms ∧
    ∃ c ∈ objectCandidates K params traj seed sched,
      c.result = res ∧ c.rms = rms ∧
      ∀ d ∈ objectCandidates K params traj seed sched, rms ≤ d.rms := by
  unfold estimate_object at h
  by_cases h3 : traj.length < 3
  · rw [if_pos h3] at h
    cases h
  · rw [if_neg h3] at h
    cases hsel : selectBest (objectCandidates K params traj seed sched) with
    | none => rw [hsel] at h; cases h
    | some c =>
      rw [hsel] at h
      cases h
      have hc : c ∈ objectCandidates K params traj seed sched :=
        List.argmin_mem hsel
      have hmin : ∀ d ∈ objectCandidates K params traj seed sched,
          c.rms ≤ d.rms := by
        intro d hd
        have hle : candidateKey c ≤ candidateKey d :=
          List.le_of_mem_argmin hd hsel
        rw [candidateKey, candidateKey, Prod.Lex.le_iff] at hle
        rcases hle with hlt | ⟨heq, -⟩
        · exact le_of_lt hlt
        · exact le_of_eq heq
      exact ⟨(mem_objectCandidates hc).2, c, hc, rfl, rfl, hmin⟩

theorem mem_successes {K : SolveKernel} {params : IODParams}
    {ts : TrajectorySet} {seed : Option ℕ} {entropy : ℕ → ℕ}
    {sched : ℕ → List ℕ} {i : ObjectId} {v : GaussResult × ℝ}
    (h : (i, v) ∈ (estimate_all_orbits K params ts seed entropy sched).1) :
    ∃ traj, (i, traj) ∈ ts ∧
      estimate_object K params traj (effSeed seed entropy i) (sched i) =
        .ok v := by
  induction ts with
  | nil => simp [estimate_all_orbits] at h
  | cons g rest ih =>
    rw [estimate_all_orbits_cons] at h
    split at h
    next r heq =>
      rcases List.mem_cons.mp h with h1 | h1
      · rw [Prod.mk.injEq] at h1
        obtain ⟨hi, hv⟩ := h1
        subst hi
        subst hv
        exact ⟨g.2, List.mem_cons_self _ _, heq⟩
      · obtain ⟨traj, htm, hok⟩ := ih h1
        exact ⟨traj, List.mem_cons_of_mem _ htm, hok⟩
    next e heq =>
      obtain ⟨traj, htm, hok⟩ := ih h
      exact ⟨traj, List.mem_cons_of_mem _ htm, hok⟩

/-- C4: every success reported by the orchestrator carries a finite (the
model is real-valued) non-negative rms which is minimal among the RMS
scores of all candidate orbits produced by all triplet attempts across
all noise realizations for that object, and the reported GaussResult is
the selected candidate's elements. -/
theorem C4_success_rms_minimal (K : SolveKernel) (params : IODParams)
    (ts : TrajectorySet) (seed : Option ℕ) (entropy : ℕ → ℕ)
    (sched : ℕ → List ℕ) (i : ObjectId) (res : GaussResult) (rms : ℝ)
    (h : (i, (res, rms)) ∈
      (estimate_all_orbits K params ts seed entropy sched).1) :
    0 ≤ rms ∧
    ∃ traj, (i, traj) ∈ ts ∧
      ∃ c ∈ objectCandidates K params traj (effSeed seed entropy i)
          (sched i),
        c.result = res ∧ c.rms = rms ∧
        ∀ d ∈ objectCandidates K params traj (effSeed seed entropy i)
            (sched i), rms ≤ d.rms := by
  obtain ⟨traj, htm, hok⟩ := mem_successes h
  obtain ⟨hnn, c, hc, hres, hrms, hmin⟩ := estimate_object_ok hok
  exact ⟨hnn, traj, htm, c, hc, hres, hrms, hmin⟩

theorem estimate_object_sched_congr (K : SolveKernel) (params : IODParams)
    (traj : List Observation) (seed : ℕ) {sched sched2 : List ℕ}
    (hp : sched.Perm sched2) (hnd : sched.Nodup) :
    estimate_object K params traj seed sched =
      estimate_object K params traj seed sched2 := by
  unfold estimate_object
  have hperm : (objectCandidates K params traj seed sched).Perm
      (objectCandidates K params traj seed sched2) :=
    hp.flatMap_right _
  have hkey := objectCandidates_key_nodup K params traj seed hnd
  rw [show selectBest (objectCandidates K params traj seed sched) =
      selectBest (objectCandidates K params traj seed sched2) from
    argmin_congr_perm hperm hkey]

/-- C7: with a supplied seed, two orchestrator runs on the same inputs
return identical successes and failures mappings regardless of the
parallel completion schedules of the noise realizations and of the
ambient entropy source: per-object generator seeding is the
deterministic function `effSeed` of (seed, object id), and result
selection is schedule-invariant. -/
theorem C7_deterministic_given_seed (K : SolveKernel) (params : IODParams)
    (ts : TrajectorySet) (s : ℕ) (entropy entropy2 : ℕ → ℕ)
    (sched sched2 : ℕ → List ℕ)
    (hs : ∀ i, (sched i).Perm (List.range params.n_noise_realizations))
    (hs2 : ∀ i, (sched2 i).Perm (List.range params.n_noise_realizations)) :
    estimate_all_orbits K params ts (some s) entropy sched =
      estimate_all_orbits K params ts (some s) entropy2 sched2 := by
  induction ts with
  | nil => rfl
  | cons g rest ih =>
    rw [estimate_all_orbits_cons, estimate_all_orbits_cons, ih]
    have hobj : estimate_object K params g.2 (effSeed (some s) entropy g.1)
        (sched g.1) =
        estimate_object K params g.2 (effSeed (some s) entropy2 g.1)
          (sched2 g.1) := by
      have he : effSeed (some s) entropy g.1 =
          effSeed (some s) entropy2 g.1 := rfl
      rw [← he]
      exact estimate_object_sched_congr K params g.2 _
        ((hs g.1).trans (hs2 g.1).symm)
        ((hs g.1).nodup_iff.mpr (List.nodup_range _))
    rw [hobj]

/-- Witness for C7 on the concrete one-object TrajectorySet, with two
different entropy sources and the (unique) single-realization
schedules. -/
theorem C7_deterministic_given_seed_witness :
    (∀ i : ℕ, ((fun _ : ℕ => ([0] : List ℕ)) i).Perm
      (List.range paramsW.n_noise_realizations)) ∧
    (∀ i : ℕ, ((fun _ : ℕ => ([0] : List ℕ)) i).Perm
      (List.range paramsW.n_noise_realizations)) ∧
    estimate_all_orbits solveKernelW paramsW tsW (some 7) (fun _ => 0)
        (fun _ => [0]) =
      estimate_all_orbits solveKernelW paramsW tsW (some 7) (fun _ => 5)
        (fun _ => [0]) :=
  ⟨fun _ => List.Perm.refl _, fun _ => List.Perm.refl _,
    C7_deterministic_given_seed solveKernelW paramsW tsW 7 (fun _ => 0)
      (fun _ => 5) (fun _ => [0]) (fun _ => [0])
      (fun _ => List.Perm.refl _) (fun _ => List.Perm.refl _)⟩

/-! ### Concrete evaluation of the bootstrap pipeline -/

theorem epochAt_perturbObs (K : SolveKernel) (params : IODParams)
    (seed r : ℕ) (traj : List Observation) (i : ℕ) :
    epochAt (perturbObs K params seed r traj) i = epochAt traj i := by
  unfold epochAt perturbObs
  rw [List.getElem?_map, List.getElem?_enum]
  cases traj[i]? <;> rfl

theorem validTriplet_W :
    validTriplet solveKernelW (perturbObs solveKernelW paramsW 0 0 trajW)
      (0, 1, 2) := by
  unfold validTriplet
  rw [epochAt_perturbObs, epochAt_perturbObs, epochAt_perturbObs]
  have h0 : epochAt trajW 0 = 0 := rfl
  have h1 : epochAt trajW 1 = 1 := rfl
  have h2 : epochAt trajW 2 = 2 := rfl
  rw [h0, h1, h2]
  refine ⟨by norm_num, by norm_num, ?_, ?_⟩ <;>
    · show solveKernelW.min_epoch_gap ≤ _
      rw [show solveKernelW.min_epoch_gap = 0 from rfl]
      norm_num

theorem rmsOf_W : rmsOf solveKernelW gW trajW = 0 := by
  have hsum : (trajW.map (fun o => solveKernelW.residual gW o ^ 2)).sum =
      ([(0 : ℝ) ^ 2, 0 ^ 2, 0 ^ 2] : List ℝ).sum := rfl
  unfold rmsOf
  rw [hsum]
  norm_num

theorem attemptTriplet_W :
    attemptTriplet solveKernelW (perturbObs solveKernelW paramsW 0 0 trajW)
      trajW (0, 1, 2) = some (gW, 0) := by
  unfold attemptTriplet
  rw [if_pos validTriplet_W]
  show some (gW, rmsOf solveKernelW gW trajW) = some (gW, 0)
  rw [rmsOf_W]

theorem runRealization_W :
    runRealization solveKernelW paramsW trajW 0 0 = [⟨0, 0, gW, 0⟩] := by
  unfold runRealization
  rw [show (selectTriplets paramsW trajW.length).enum = [(0, (0, 1, 2))]
    from rfl]
  rw [List.filterMap_cons, List.filterMap_nil]
  rw [show ((0, (0, 1, 2)) : ℕ × ℕ × ℕ × ℕ).2 = (0, 1, 2) from rfl]
  rw [attemptTriplet_W]
  rfl

theorem estimate_object_W :
    estimate_object solveKernelW paramsW trajW 0 [0] = .ok (gW, 0) := by
  have hlen : ¬trajW.length < 3 := by
    rw [show trajW.length = 3 from rfl]
    omega
  unfold estimate_object
  rw [if_neg hlen]
  rw [show objectCandidates solveKernelW paramsW trajW 0 [0] =
      runRealization solveKernelW paramsW trajW 0 0 ++ [] from rfl]
  rw [runRealization_W, List.append_nil]
  rw [show selectBest [(⟨0, 0, gW, 0⟩ : Candidate)] = some ⟨0, 0, gW, 0⟩
    from List.argmin_singleton]

theorem estimate_all_orbits_W :
    estimate_all_orbits solveKernelW paramsW tsW (some 0) (fun _ => 0)
      (fun _ => [0]) = ([(0, (gW, 0))], []) := by
  rw [show tsW = [(0, trajW)] from rfl]
  rw [estimate_all_orbits_cons]
  rw [show effSeed (some 0) (fun _ => 0) ((0 : ObjectId), trajW).1 = 0
    from rfl]
  rw [show ((0 : ObjectId), trajW).2 = trajW from rfl]
  rw [estimate_object_W]
  rfl

/-- Witness for C4: on the concrete single-object run, the success entry
(object 0, result `gW`, rms 0) is reported, its rms is non-negative, and
it is minimal among the candidates. -/
theorem C4_success_rms_minimal_witness :
    (((0 : ObjectId), (gW, (0 : ℝ))) ∈
      (estimate_all_orbits solveKernelW paramsW tsW (some 0) (fun _ => 0)
        (fun _ => [0])).1) ∧
    (0 ≤ (0 : ℝ) ∧
     ∃ traj, ((0 : ObjectId), traj) ∈ tsW ∧
      ∃ c ∈ objectCandidates solveKernelW paramsW traj
          (effSeed (some 0) (fun _ => 0) 0) [0],
        c.result = gW ∧ c.rms = 0 ∧
        ∀ d ∈ objectCandidates solveKernelW paramsW traj
            (effSeed (some 0) (fun _ => 0) 0) [0],
          (0 : ℝ) ≤ d.rms) :=
  have hmem : ((0 : ObjectId), (gW, (0 : ℝ))) ∈
      (estimate_all_orbits solveKernelW paramsW tsW (some 0) (fun _ => 0)
        (fun _ => [0])).1 := by
    rw [estimate_all_orbits_W]
    exact List.mem_singleton.mpr rfl
  ⟨hmem, C4_success_rms_minimal solveKernelW paramsW tsW (some 0)
    (fun _ => 0) (fun _ => [0]) 0 gW 0 hmem⟩
